import Mathlib

/-!
Verification development for the hanatane OGP-image generator.

The program lets a user fill in a small configuration (site name, article
title, author name, author icon, size preset, gradient theme) and exports a
fixed-template Open-Graph card as a PNG.  We embed the data model
(`src/types/ogp.ts`), the title segmenter and render content of the preview
component (`OgpPreview`), the export controller (`handleDownload` plus the
download button's `disabled` guard), and the form change handlers
(`src/components/OgpForm.tsx`) as executable Lean definitions, and prove the
specification's testable properties about them.

JavaScript strings are modelled as `List Char`; machine reals appearing in
the preview-scale computation are modelled as `ℚ`.
-/

/-- JavaScript strings, modelled as lists of characters. -/
abbrev Str := List Char

/-! ## Preset registry (`src/types/ogp.ts`) -/

/-- `OgpSizePreset`: the closed enum of size keys, `"standard" | "wide"`. -/
inductive OgpSizePreset where
  | standard
  | wide
deriving DecidableEq

/-- `OgpSize`: one entry of the size-preset table. -/
structure OgpSize where
  preset : OgpSizePreset
  width : Nat
  height : Nat
  label : String
deriving DecidableEq

/-- `OGP_SIZE_PRESETS` from `src/types/ogp.ts` (lines 48-61): the static
table mapping each size key to its geometry and label. -/
def OGP_SIZE_PRESETS : OgpSizePreset → OgpSize
  | .standard => ⟨.standard, 1200, 630, "標準サイズ (1200x630)"⟩
  | .wide => ⟨.wide, 1200, 675, "ワイドサイズ (1200x675 / 16:9)"⟩

/-- Modelled from the spec: the gradient-theme key enum (`themeKey`).  The
current `src/types/ogp.ts` revision holding `GradientPreset` and
`GRADIENT_PRESETS` is not present under `src/`; only the key `"purple"` is
evidenced (initial configuration in the top-page route and the purple markup
of the earlier `OgpPreview` revision), so the catalog is modelled with that
key.  No claim below depends on the size of this enum. -/
inductive GradientPreset where
  | purple
deriving DecidableEq

/-- Modelled from the spec: one entry of the gradient-theme catalog
(`ThemePreset { key, label, baseGradientSpec, decorationSpecs }`), with the
field names used by the callers in `src/` (`preset`, `label`,
`baseGradient`, `decorations`). -/
structure GradientConfig where
  preset : GradientPreset
  label : String
  baseGradient : String
  decorations : List String
deriving DecidableEq

/-- Modelled from the spec: the theme catalog `GRADIENT_PRESETS`, a static
mapping from theme key to declarative gradient data.  The purple entry's
class strings are taken from the earlier inlined `OgpPreview` markup. -/
def GRADIENT_PRESETS : GradientPreset → GradientConfig
  | .purple =>
    ⟨.purple, "パープル",
      "bg-gradient-to-br from-violet-500 via-purple-500 to-fuchsia-500",
      ["bg-[radial-gradient(circle_at_20%_30%,rgba(236,72,153,0.3),transparent_50%)]",
       "bg-[radial-gradient(circle_at_80%_70%,rgba(168,85,247,0.4),transparent_60%)]",
       "bg-[radial-gradient(circle_at_50%_50%,rgba(59,130,246,0.2),transparent_70%)]"]⟩

/-- `OgpConfig`: the configuration value object.  The first five fields are
from `src/types/ogp.ts`; `gradientColor` is the theme key used by the current
`OgpForm`/`OgpPreview` sources (its declaration in the types file is not
under `src/`, see `GradientPreset`). -/
structure OgpConfig where
  siteName : Str
  articleTitle : Str
  authorName : Str
  authorIconUrl : Str
  selectedSize : OgpSizePreset
  gradientColor : GradientPreset
deriving DecidableEq

/-- `getOgpSize` from `src/types/ogp.ts` (lines 69-72): looks up the selected
preset and returns its width and height. -/
def getOgpSize (config : OgpConfig) : Nat × Nat :=
  let preset := OGP_SIZE_PRESETS config.selectedSize
  (preset.width, preset.height)

/-! ## JavaScript string helpers -/

/-- JavaScript `a || b` specialised to strings: the empty string is the only
falsy string, so `a || b` yields `b` exactly when `a` is empty. -/
def jsOrElse (s fallback : Str) : Str :=
  if s = [] then fallback else s

/-- JavaScript `s.slice(a, b)` for natural indices: the characters of `s`
from position `a` (inclusive) to `b` (exclusive), clamped to the string. -/
def jsSlice (s : Str) (a b : Nat) : Str :=
  (s.take b).drop a

/-- JavaScript `s.slice(a)`: the suffix of `s` from position `a`. -/
def jsSliceFrom (s : Str) (a : Nat) : Str :=
  s.drop a

/-! ## BudouX phrase-boundary classifier

The classifier used by `formattedTitle` is BudouX's
`loadDefaultJapaneseParser().parse`.  Its `parse` method returns `[]` for the
empty sentence and otherwise slices the sentence at the machine-learned
boundary positions: `result.push(sentence.slice(start, boundary))` for each
boundary, then `result.push(sentence.slice(start))`.  We embed that slicing
loop verbatim, parameterised by the boundary-position function (the ML model
itself is opaque data; every model produces a strictly increasing boundary
list, so the chain hypothesis below is satisfied by the real classifier). -/

/-- The slicing loop of BudouX `parse`: chunk `s` at the given boundary
positions, starting from offset `start`. -/
def budouxChunks (s : Str) : Nat → List Nat → List Str
  | start, [] => [jsSliceFrom s start]
  | start, b :: bs => jsSlice s start b :: budouxChunks s b bs

/-- BudouX `parse`, parameterised by the boundary-position function: the
empty sentence yields `[]` (the explicit guard in BudouX), otherwise the
sentence is sliced at the computed boundaries. -/
def budouxParse (boundaries : Str → List Nat) (s : Str) : List Str :=
  if s = [] then [] else budouxChunks s 0 (boundaries s)

/-- A boundary model finding no phrase boundaries: every line is one chunk.
This is the degenerate instance the spec licenses for unsupported scripts. -/
def noBoundaries : Str → List Nat := fun _ => []

/-! ## Text segmenter (`OgpPreview.formattedTitle`) -/

/-- The newline character the title is split on (`title.split("\n")`). -/
def newlineChar : Char := '\n'

/-- The localized placeholder substituted for an empty article title. -/
def titlePlaceholder : Str := "記事タイトル".data

/-- The segment structure produced by `formattedTitle` before HTML wrapping:
the title is split on explicit newlines and each line is handed to the
phrase-boundary classifier, giving one chunk list per line. -/
def segmentTitle (classify : Str → List Str) (title : Str) : List (List Str) :=
  (title.splitOn newlineChar).map classify

/-- Opening tag wrapped around every chunk in `formattedTitle`. -/
def spanOpen : Str := "<span style=\"display:inline-block\">".data

/-- Closing tag wrapped around every chunk in `formattedTitle`. -/
def spanClose : Str := "</span>".data

/-- Soft-break marker joined between chunks of one line. -/
def wbrTag : Str := "<wbr>".data

/-- Hard line break joined between lines. -/
def brTag : Str := "<br>".data

/-- One chunk of `formattedTitle`:
`` `<span style="display:inline-block">${chunk}</span>` ``. -/
def wrapChunk (chunk : Str) : Str :=
  spanOpen ++ chunk ++ spanClose

/-- One line of `formattedTitle`: the line's chunks, each wrapped in a span,
joined with `<wbr>`. -/
def renderLine (classify : Str → List Str) (line : Str) : Str :=
  List.intercalate wbrTag ((classify line).map wrapChunk)

/-- The body of `formattedTitle` operating on the already-substituted title
(source lines 46-55): split on `"\n"`, render each line's chunks, and join
the lines with `<br>`. -/
def renderTitleLines (classify : Str → List Str) (title : Str) : Str :=
  List.intercalate brTag ((title.splitOn newlineChar).map (renderLine classify))

/-- `formattedTitle` from the current `OgpPreview` (lines 41-56): substitute
the placeholder for an empty title (`config.articleTitle || "記事タイトル"`),
then split on `"\n"`, segment each line with the classifier, wrap chunks in
spans joined by `<wbr>`, and join the lines with `<br>`. -/
def formattedTitle (classify : Str → List Str) (articleTitle : Str) : Str :=
  renderTitleLines classify (jsOrElse articleTitle titlePlaceholder)

/-! ## Rendered OGP content (`OgpPreview.renderOgpContent`) -/

/-- The bundled default icon asset path used when `authorIconUrl` is empty. -/
def defaultIconPath : Str := "/default_icon512.png".data

/-- Localized placeholder rendered for an empty author name. -/
def authorPlaceholder : Str := "著者名".data

/-- Localized placeholder rendered for an empty site name. -/
def sitePlaceholder : Str := "サイト名".data

/-- The data rendered by `renderOgpContent` (current `OgpPreview`,
lines 96-154): gradient classes from the selected theme preset, the
formatted title HTML, the icon source and alt text, and the author and site
name texts with their empty-string fallbacks. -/
structure OgpContent where
  baseGradient : String
  decorations : List String
  titleHtml : Str
  iconSrc : Str
  iconAlt : Str
  authorNameText : Str
  siteNameText : Str
deriving DecidableEq

/-- `renderOgpContent` from the current `OgpPreview`: resolves the gradient
preset, and renders `formattedTitle`,
`config.authorIconUrl || "/default_icon512.png"`,
`config.authorName || "著者名"` and `config.siteName || "サイト名"`. -/
def renderOgpContent (classify : Str → List Str) (config : OgpConfig) : OgpContent :=
  let gradientConfig := GRADIENT_PRESETS config.gradientColor
  { baseGradient := gradientConfig.baseGradient
    decorations := gradientConfig.decorations
    titleHtml := formattedTitle classify config.articleTitle
    iconSrc := jsOrElse config.authorIconUrl defaultIconPath
    iconAlt := config.authorName
    authorNameText := jsOrElse config.authorName authorPlaceholder
    siteNameText := jsOrElse config.siteName sitePlaceholder }

/-! ## Preview and export elements (`OgpPreview` render tree) -/

/-- Geometry and content of one rendered OGP element: its CSS width and
height in logical pixels, the scale factor of its CSS transform (`1` when no
transform is applied), and the content it renders. -/
structure ElementStyle where
  width : ℚ
  height : ℚ
  scale : ℚ
  content : OgpContent
deriving DecidableEq

/-- The two OGP renderings in the `OgpPreview` component tree: the visible
shrunk preview and the hidden element the rasterizer is pointed at. -/
structure OgpPreviewView where
  preview : ElementStyle
  exportTarget : ElementStyle
deriving DecidableEq

/-- The `OgpPreview` render tree (current revision).  The visible preview
element (lines 171-180) carries `transform: scale(min(maxPreviewWidth/width, 1))`;
the hidden element holding `previewRef` (lines 185-204) is laid out at the
exact `width × height` with no transform.  The source fixes
`maxPreviewWidth = 600`; it is a parameter here so that independence from the
preview scale can be stated. -/
def ogpPreviewView (maxPreviewWidth : ℚ) (classify : Str → List Str)
    (config : OgpConfig) : OgpPreviewView :=
  let sz := getOgpSize config
  let scale : ℚ := min (maxPreviewWidth / (sz.1 : ℚ)) 1
  let content := renderOgpContent classify config
  { preview := ⟨(sz.1 : ℚ), (sz.2 : ℚ), scale, content⟩
    exportTarget := ⟨(sz.1 : ℚ), (sz.2 : ℚ), 1, content⟩ }

/-! ## Rasterizer contract (`html-to-image` `toPng`) -/

/-- The options `handleDownload` passes to `toPng`.  The source field name
for the density is `pixelRatio`. -/
structure ToPngOpts where
  width : Nat
  height : Nat
  pixelDensity : ℚ
deriving DecidableEq

/-- Modelled from the `html-to-image` contract: with explicit `width` and
`height` options, `toPng` sizes its canvas at
`width × pixelRatio` by `height × pixelRatio` physical pixels. -/
def toPngOutputDims (opts : ToPngOpts) : ℚ × ℚ :=
  ((opts.width : ℚ) * opts.pixelDensity, (opts.height : ℚ) * opts.pixelDensity)

/-- The `toPng` options built by `handleDownload` (current `OgpPreview`,
lines 61-84): `width` and `height` come from `getOgpSize(config)`.  The
density is a parameter so the output-dimension law can be stated for every
requested density; the source requests `handleDownloadDensity`. -/
def handleDownloadOpts (config : OgpConfig) (density : ℚ) : ToPngOpts :=
  let sz := getOgpSize config
  { width := sz.1, height := sz.2, pixelDensity := density }

/-- The density the current `handleDownload` requests (`pixelRatio: 1`). -/
def handleDownloadDensity : ℚ := 1

/-! ## Export controller (`handleDownload` and the download button)

`handleDownload` sets `isDownloading` before awaiting `toPng`; the download
button is rendered with `disabled={isDownloading}` (lines 211-219), so a
click arriving while an export is in flight fires no handler — the spec's
`AlreadyInProgress` rejection.  On resolution of `toPng` the data URL is
handed to a download link (`link.click()`); on rejection a single alert is
shown and no link is clicked; either way the `finally` block clears
`isDownloading`.  We model this as a labelled transition system whose state
counts in-flight exports, delivered files and surfaced errors. -/

/-- Observable state of the export controller. -/
structure ExportState where
  isDownloading : Bool
  inFlight : Nat
  files : Nat
  errors : Nat
deriving DecidableEq

/-- Events of the export controller: a click on the download button, and
resolution or rejection of the in-flight `toPng` call. -/
inductive ExportEvent where
  | click
  | finishSuccess
  | finishFailure
deriving DecidableEq

/-- Transition relation of the export controller, translated from
`handleDownload` and the button markup:
a click on the disabled button (while downloading) changes nothing; a click
while idle sets `isDownloading` and starts one export; a successful finish
delivers one file, a failed finish surfaces one error, and both clear
`isDownloading` in the `finally` block. -/
inductive ExportStep : ExportState → ExportEvent → ExportState → Prop
  | clickBusy (s : ExportState) (h : s.isDownloading = true) :
      ExportStep s .click s
  | clickIdle (s : ExportState) (h : s.isDownloading = false) :
      ExportStep s .click { s with isDownloading := true, inFlight := s.inFlight + 1 }
  | success (s : ExportState) (h : s.isDownloading = true) :
      ExportStep s .finishSuccess
        { isDownloading := false, inFlight := s.inFlight - 1,
          files := s.files + 1, errors := s.errors }
  | failure (s : ExportState) (h : s.isDownloading = true) :
      ExportStep s .finishFailure
        { isDownloading := false, inFlight := s.inFlight - 1,
          files := s.files, errors := s.errors + 1 }

/-- Initial controller state: idle, nothing in flight, nothing delivered. -/
def initialExportState : ExportState := ⟨false, 0, 0, 0⟩

/-- States the export controller can reach from the initial state. -/
inductive ReachableExport : ExportState → Prop
  | init : ReachableExport initialExportState
  | step {s : ExportState} {e : ExportEvent} {s' : ExportState} :
      ReachableExport s → ExportStep s e s' → ReachableExport s'

/-! ## Form change handlers (`src/components/OgpForm.tsx`) -/

/-- The text fields `handleTextChange` is instantiated at in the form. -/
inductive OgpTextField where
  | siteName
  | articleTitle
  | authorName
deriving DecidableEq

/-- `handleTextChange` (OgpForm lines 38-42):
`onChange({ ...config, [field]: e.target.value })` — replace the targeted
field, spread the rest. -/
def handleTextChange (field : OgpTextField) (config : OgpConfig) (value : Str) : OgpConfig :=
  match field with
  | .siteName => { config with siteName := value }
  | .articleTitle => { config with articleTitle := value }
  | .authorName => { config with authorName := value }

/-- `handleSizeChange` (OgpForm lines 47-50):
`onChange({ ...config, selectedSize })`. -/
def handleSizeChange (config : OgpConfig) (selectedSize : OgpSizePreset) : OgpConfig :=
  { config with selectedSize := selectedSize }

/-- `handleGradientChange` (OgpForm lines 55-57):
`onChange({ ...config, gradientColor: preset })`. -/
def handleGradientChange (config : OgpConfig) (preset : GradientPreset) : OgpConfig :=
  { config with gradientColor := preset }

/-- The `onChange` action of `handleFileChange`'s reader callback (OgpForm
lines 69-80): `onChange({ ...config, authorIconUrl: dataUrl })`. -/
def handleFileChange (config : OgpConfig) (dataUrl : Str) : OgpConfig :=
  { config with authorIconUrl := dataUrl }

/-! ## Helper lemmas -/

/-- Slicing `s` up to `b` and then dropping everything before `b` together
recover the suffix of `s` from `a`, provided `a ≤ b`. -/
lemma jsSlice_append_drop (s : Str) (a b : Nat) (h : a ≤ b) :
    jsSlice s a b ++ s.drop b = s.drop a := by
  unfold jsSlice
  rcases le_or_lt a s.length with hle | hgt
  · have h1 : a - (s.take b).length = 0 := by
      simp only [List.length_take]
      omega
    conv_rhs => rw [← List.take_append_drop b s]
    rw [List.drop_append_eq_append_drop, h1, List.drop_zero]
  · have h2 : s.drop a = [] := List.drop_eq_nil_of_le (by omega)
    have h3 : s.drop b = [] := List.drop_eq_nil_of_le (by omega)
    have h4 : (s.take b).drop a = [] := by
      apply List.drop_eq_nil_of_le
      simp only [List.length_take]
      omega
    simp [h2, h3, h4]

/-- The BudouX slicing loop is lossless: when the boundary positions are
non-decreasing from the start offset, the chunks concatenate to the suffix
of the sentence from that offset. -/
lemma budouxChunks_flatten (s : Str) :
    ∀ (bs : List Nat) (start : Nat), List.Chain (· ≤ ·) start bs →
      (budouxChunks s start bs).flatten = s.drop start := by
  intro bs
  induction bs with
  | nil =>
    intro start _
    simp [budouxChunks, jsSliceFrom]
  | cons b bs ih =>
    intro start hchain
    cases hchain with
    | cons hab htail =>
      simp only [budouxChunks, List.flatten_cons, ih b htail]
      exact jsSlice_append_drop s start b hab

/-- BudouX `parse` is lossless for every boundary model whose positions are
non-decreasing (the real model's boundaries are strictly increasing): the
chunks concatenate back to the sentence. -/
lemma budouxParse_flatten (boundaries : Str → List Nat) (s : Str)
    (h : List.Chain (· ≤ ·) 0 (boundaries s)) :
    (budouxParse boundaries s).flatten = s := by
  unfold budouxParse
  split
  · simp [*]
  · rw [budouxChunks_flatten s (boundaries s) 0 h, List.drop_zero]

/-! ## Claims -/

/-- Claim C1: for every input title string, the segmenter is lossless —
splitting on explicit newlines and segmenting each line with any classifier
satisfying the phrase-boundary contract (chunks concatenate to the line)
yields segments whose texts, concatenated with the explicit line breaks
restored at their original positions, equal the input exactly. -/
theorem C1_segmenter_lossless (classify : Str → List Str) (s : Str)
    (h : ∀ l : Str, (classify l).flatten = l) :
    List.intercalate [newlineChar] ((segmentTitle classify s).map List.flatten) = s := by
  unfold segmentTitle
  rw [List.map_map]
  have hid : (List.flatten ∘ classify) = id := funext fun l => h l
  rw [hid, List.map_id]
  exact List.intercalate_splitOn s newlineChar

/-- Witness for C1 at the concrete title `"ab\ncd"`, with the classifier
instantiated to the BudouX model under the no-boundaries model. -/
theorem C1_segmenter_lossless_witness :
    List.intercalate [newlineChar]
      ((segmentTitle (budouxParse noBoundaries) ("ab\ncd".data)).map List.flatten)
      = "ab\ncd".data :=
  C1_segmenter_lossless (budouxParse noBoundaries) ("ab\ncd".data)
    (fun l => budouxParse_flatten noBoundaries l List.Chain.nil)

/-- Claim C7: when the overall title is empty, the placeholder is
substituted before segmentation runs, so an empty title renders exactly as
if the (non-empty) placeholder had been entered by the user — the
placeholder itself goes through the line split and the classifier, and is
never appended after segmentation. -/
theorem C7_placeholder_segmented (classify : Str → List Str) :
    titlePlaceholder ≠ [] ∧
    formattedTitle classify [] = renderTitleLines classify titlePlaceholder ∧
    formattedTitle classify [] = formattedTitle classify titlePlaceholder := by
  have hne : titlePlaceholder ≠ [] := by decide
  have hsub : jsOrElse titlePlaceholder titlePlaceholder = titlePlaceholder := by
    unfold jsOrElse
    rw [if_neg hne]
  have h0 : jsOrElse [] titlePlaceholder = titlePlaceholder := by
    unfold jsOrElse
    rw [if_pos rfl]
  refine ⟨hne, ?_, ?_⟩
  · unfold formattedTitle
    rw [h0]
  · unfold formattedTitle
    rw [h0, hsub]

/-- Counterexample for claim C9: BudouX `parse` returns the empty chunk
sequence for the empty sentence (its explicit first guard), so segmenting
the empty string yields zero segments, not one empty segment; likewise the
empty middle line of `"a\n\nb"` contributes a zero-length segment sequence. -/
theorem C9_counterexample :
    budouxParse noBoundaries ([] : Str) = [] ∧
    (budouxParse noBoundaries ([] : Str)).length ≠ 1 ∧
    segmentTitle (budouxParse noBoundaries) ("a\n\nb".data)
      = [[['a']], [], [['b']]] := by
  decide

/-- Claim C9 as amended: segmenting the empty string, and every empty line
produced by splitting on explicit line breaks, yields the empty segment
sequence (zero segments, never one empty segment); the segmenter still
emits exactly one chunk list per line, so blank lines keep their position
among the `<br>`-joined lines. -/
theorem C9_empty_line_zero_segments (boundaries : Str → List Nat) (title : Str) :
    budouxParse boundaries [] = [] ∧
    (segmentTitle (budouxParse boundaries) title).length
      = (title.splitOn newlineChar).length := by
  constructor
  · simp [budouxParse]
  · simp [segmentTitle]

/-- Claim C8: the size-preset lookup is total over the closed key enum (it
is a Lean function, hence total and effect-free) and returns the preset
whose `preset` key equals the requested key. -/
theorem C8_size_lookup_fidelity (k : OgpSizePreset) :
    (OGP_SIZE_PRESETS k).preset = k := by
  cases k <;> rfl

/-- Claim C2: for every configuration and every requested pixel density,
the raster produced from the options `handleDownload` builds has pixel
dimensions exactly the selected size preset's width and height (1200×630
for `standard`, 1200×675 for `wide`) multiplied by the density.  The
current source requests density `1` (`handleDownloadDensity`). -/
theorem C2_export_dimensions (config : OgpConfig) (d : ℚ) :
    toPngOutputDims (handleDownloadOpts config d)
      = (1200 * d,
         (if config.selectedSize = OgpSizePreset.standard then (630 : ℚ) else 675) * d) := by
  cases h : config.selectedSize <;>
    simp [toPngOutputDims, handleDownloadOpts, getOgpSize, OGP_SIZE_PRESETS, h]

/-- Claim C3: for every preview width budget (hence every preview scale
factor), the hidden element handed to the rasterizer is laid out at the
exact full target resolution with no scale transform, renders the same
content as the preview, and is independent of the preview width budget. -/
theorem C3_export_target_unscaled (m m' : ℚ) (classify : Str → List Str)
    (config : OgpConfig) :
    (ogpPreviewView m classify config).exportTarget.scale = 1 ∧
    (ogpPreviewView m classify config).exportTarget.width = ((getOgpSize config).1 : ℚ) ∧
    (ogpPreviewView m classify config).exportTarget.height = ((getOgpSize config).2 : ℚ) ∧
    (ogpPreviewView m classify config).exportTarget.content
      = renderOgpContent classify config ∧
    (ogpPreviewView m classify config).exportTarget
      = (ogpPreviewView m' classify config).exportTarget :=
  ⟨rfl, rfl, rfl, rfl, rfl⟩

/-- Claim C6: in the rendered layout, each empty string field is replaced by
its fallback — empty site name, author name and article title render their
localized placeholders (the title placeholder being segmented like any
title), and an empty icon URL falls back to the bundled default asset —
while non-empty fields render their own value unchanged. -/
theorem C6_empty_field_fallbacks (classify : Str → List Str) (config : OgpConfig) :
    (config.siteName = [] →
      (renderOgpContent classify config).siteNameText = sitePlaceholder) ∧
    (config.siteName ≠ [] →
      (renderOgpContent classify config).siteNameText = config.siteName) ∧
    (config.authorName = [] →
      (renderOgpContent classify config).authorNameText = authorPlaceholder) ∧
    (config.authorName ≠ [] →
      (renderOgpContent classify config).authorNameText = config.authorName) ∧
    (config.authorIconUrl = [] →
      (renderOgpContent classify config).iconSrc = defaultIconPath) ∧
    (config.authorIconUrl ≠ [] →
      (renderOgpContent classify config).iconSrc = config.authorIconUrl) ∧
    (config.articleTitle = [] →
      (renderOgpContent classify config).titleHtml
        = renderTitleLines classify titlePlaceholder) ∧
    (config.articleTitle ≠ [] →
      (renderOgpContent classify config).titleHtml
        = renderTitleLines classify config.articleTitle) := by
  refine ⟨fun h => ?_, fun h => ?_, fun h => ?_, fun h => ?_,
          fun h => ?_, fun h => ?_, fun h => ?_, fun h => ?_⟩ <;>
    simp [renderOgpContent, jsOrElse, formattedTitle, h]

/-- A configuration whose four text fields are all empty, for the C6
witness. -/
def exampleEmptyConfig : OgpConfig :=
  ⟨[], [], [], [], .standard, .purple⟩

/-- The initial configuration of the top-page route (all fields populated),
for the C6 witness. -/
def exampleFullConfig : OgpConfig :=
  ⟨"はなしのタネ".data, "metaタグ、OGP設定".data, "たねのぶ".data,
   "/default_icon512.png".data, .standard, .purple⟩

/-- Witness for C6: evaluated on the all-empty configuration and on the
top-page initial configuration. -/
theorem C6_empty_field_fallbacks_witness :
    (renderOgpContent (budouxParse noBoundaries) exampleEmptyConfig).siteNameText
      = sitePlaceholder ∧
    (renderOgpContent (budouxParse noBoundaries) exampleFullConfig).siteNameText
      = "はなしのタネ".data ∧
    (renderOgpContent (budouxParse noBoundaries) exampleEmptyConfig).authorNameText
      = authorPlaceholder ∧
    (renderOgpContent (budouxParse noBoundaries) exampleFullConfig).authorNameText
      = "たねのぶ".data ∧
    (renderOgpContent (budouxParse noBoundaries) exampleEmptyConfig).iconSrc
      = defaultIconPath ∧
    (renderOgpContent (budouxParse noBoundaries) exampleFullConfig).iconSrc
      = "/default_icon512.png".data ∧
    (renderOgpContent (budouxParse noBoundaries) exampleEmptyConfig).titleHtml
      = renderTitleLines (budouxParse noBoundaries) titlePlaceholder ∧
    (renderOgpContent (budouxParse noBoundaries) exampleFullConfig).titleHtml
      = renderTitleLines (budouxParse noBoundaries) ("metaタグ、OGP設定".data) :=
  ⟨(C6_empty_field_fallbacks (budouxParse noBoundaries) exampleEmptyConfig).1 rfl,
   (C6_empty_field_fallbacks (budouxParse noBoundaries) exampleFullConfig).2.1 (by decide),
   (C6_empty_field_fallbacks (budouxParse noBoundaries) exampleEmptyConfig).2.2.1 rfl,
   (C6_empty_field_fallbacks (budouxParse noBoundaries) exampleFullConfig).2.2.2.1 (by decide),
   (C6_empty_field_fallbacks (budouxParse noBoundaries) exampleEmptyConfig).2.2.2.2.1 rfl,
   (C6_empty_field_fallbacks (budouxParse noBoundaries) exampleFullConfig).2.2.2.2.2.1 (by decide),
   (C6_empty_field_fallbacks (budouxParse noBoundaries) exampleEmptyConfig).2.2.2.2.2.2.1 rfl,
   (C6_empty_field_fallbacks (budouxParse noBoundaries) exampleFullConfig).2.2.2.2.2.2.2 (by decide)⟩

/-- Invariant of the export controller: in every reachable state the number
of in-flight exports is `1` while `isDownloading` and `0` while idle, so
there is never more than one export in flight. -/
lemma reachable_inFlight_eq (s : ExportState) (h : ReachableExport s) :
    s.inFlight = (if s.isDownloading then 1 else 0) := by
  induction h with
  | init => rfl
  | step hr hstep ih =>
    cases hstep with
    | clickBusy ht => exact ih
    | clickIdle ht =>
      rw [ht] at ih
      simp at ih
      simp [ih]
    | success ht =>
      rw [ht] at ih
      simp at ih
      simp [ih]
    | failure ht =>
      rw [ht] at ih
      simp at ih
      simp [ih]

/-- Claim C4: the export controller never has two exports in flight — every
reachable state has at most one in-flight export — and a click arriving
while one is in flight (the disabled download button, the spec's
`AlreadyInProgress` rejection) leaves the state unchanged: no file is
produced and the first export's outcome is untouched. -/
theorem C4_single_export_in_flight (s s' : ExportState)
    (hr : ReachableExport s) (hstep : ExportStep s ExportEvent.click s')
    (hbusy : s.isDownloading = true) :
    s.inFlight ≤ 1 ∧ s' = s := by
  constructor
  · rw [reachable_inFlight_eq s hr]
    split <;> omega
  · cases hstep with
    | clickBusy ht => rfl
    | clickIdle ht => rw [ht] at hbusy; simp at hbusy

/-- Witness for C4: the state reached by one click from the initial state
is busy with one export in flight; a second click is a no-op. -/
theorem C4_single_export_in_flight_witness :
    (⟨true, 1, 0, 0⟩ : ExportState).inFlight ≤ 1 ∧
    (⟨true, 1, 0, 0⟩ : ExportState) = ⟨true, 1, 0, 0⟩ :=
  C4_single_export_in_flight ⟨true, 1, 0, 0⟩ ⟨true, 1, 0, 0⟩
    (ReachableExport.step ReachableExport.init
      (ExportStep.clickIdle initialExportState rfl))
    (ExportStep.clickBusy ⟨true, 1, 0, 0⟩ rfl) rfl

/-- Claim C5: whichever way the in-flight rasterization finishes, the
controller ends back in the idle state (`isDownloading` cleared by the
`finally` block); a failure surfaces exactly one user-facing error and
delivers no file, while a success delivers exactly one file and no error. -/
theorem C5_finish_returns_idle (s s' : ExportState) (e : ExportEvent)
    (hstep : ExportStep s e s') (hfin : e ≠ ExportEvent.click) :
    s'.isDownloading = false ∧
    (e = ExportEvent.finishFailure → s'.errors = s.errors + 1 ∧ s'.files = s.files) ∧
    (e = ExportEvent.finishSuccess → s'.files = s.files + 1 ∧ s'.errors = s.errors) := by
  cases hstep with
  | clickBusy ht => exact absurd rfl hfin
  | clickIdle ht => exact absurd rfl hfin
  | success ht =>
    exact ⟨rfl, fun hc => ExportEvent.noConfusion hc, fun _ => ⟨rfl, rfl⟩⟩
  | failure ht =>
    exact ⟨rfl, fun _ => ⟨rfl, rfl⟩, fun hc => ExportEvent.noConfusion hc⟩

/-- Witness for C5: a failing finish from a busy state clears the flag,
adds one error and delivers no file. -/
theorem C5_finish_returns_idle_witness :
    (⟨false, 0, 0, 1⟩ : ExportState).isDownloading = false ∧
    (ExportEvent.finishFailure = ExportEvent.finishFailure →
      (⟨false, 0, 0, 1⟩ : ExportState).errors = (⟨true, 1, 0, 0⟩ : ExportState).errors + 1 ∧
      (⟨false, 0, 0, 1⟩ : ExportState).files = (⟨true, 1, 0, 0⟩ : ExportState).files) ∧
    (ExportEvent.finishFailure = ExportEvent.finishSuccess →
      (⟨false, 0, 0, 1⟩ : ExportState).files = (⟨true, 1, 0, 0⟩ : ExportState).files + 1 ∧
      (⟨false, 0, 0, 1⟩ : ExportState).errors = (⟨true, 1, 0, 0⟩ : ExportState).errors) :=
  C5_finish_returns_idle ⟨true, 1, 0, 0⟩ ⟨false, 0, 0, 1⟩ ExportEvent.finishFailure
    (ExportStep.failure ⟨true, 1, 0, 0⟩ rfl) (by decide)

/-- Claim C10: every form change handler is frame-preserving — it sets the
targeted field to the new value and leaves every other configuration field
equal to its previous value (and a Lean `OgpConfig`, like the spec's
Configuration, is always fully populated by construction). -/
theorem C10_handlers_frame_preserving (config : OgpConfig) (v : Str)
    (k : OgpSizePreset) (g : GradientPreset) (u : Str) :
    ((handleTextChange OgpTextField.siteName config v).siteName = v ∧
     (handleTextChange OgpTextField.siteName config v).articleTitle = config.articleTitle ∧
     (handleTextChange OgpTextField.siteName config v).authorName = config.authorName ∧
     (handleTextChange OgpTextField.siteName config v).authorIconUrl = config.authorIconUrl ∧
     (handleTextChange OgpTextField.siteName config v).selectedSize = config.selectedSize ∧
     (handleTextChange OgpTextField.siteName config v).gradientColor = config.gradientColor) ∧
    ((handleTextChange OgpTextField.articleTitle config v).articleTitle = v ∧
     (handleTextChange OgpTextField.articleTitle config v).siteName = config.siteName ∧
     (handleTextChange OgpTextField.articleTitle config v).authorName = config.authorName ∧
     (handleTextChange OgpTextField.articleTitle config v).authorIconUrl = config.authorIconUrl ∧
     (handleTextChange OgpTextField.articleTitle config v).selectedSize = config.selectedSize ∧
     (handleTextChange OgpTextField.articleTitle config v).gradientColor = config.gradientColor) ∧
    ((handleTextChange OgpTextField.authorName config v).authorName = v ∧
     (handleTextChange OgpTextField.authorName config v).siteName = config.siteName ∧
     (handleTextChange OgpTextField.authorName config v).articleTitle = config.articleTitle ∧
     (handleTextChange OgpTextField.authorName config v).authorIconUrl = config.authorIconUrl ∧
     (handleTextChange OgpTextField.authorName config v).selectedSize = config.selectedSize ∧
     (handleTextChange OgpTextField.authorName config v).gradientColor = config.gradientColor) ∧
    ((handleSizeChange config k).selectedSize = k ∧
     (handleSizeChange config k).siteName = config.siteName ∧
     (handleSizeChange config k).articleTitle = config.articleTitle ∧
     (handleSizeChange config k).authorName = config.authorName ∧
     (handleSizeChange config k).authorIconUrl = config.authorIconUrl ∧
     (handleSizeChange config k).gradientColor = config.gradientColor) ∧
    ((handleGradientChange config g).gradientColor = g ∧
     (handleGradientChange config g).siteName = config.siteName ∧
     (handleGradientChange config g).articleTitle = config.articleTitle ∧
     (handleGradientChange config g).authorName = config.authorName ∧
     (handleGradientChange config g).authorIconUrl = config.authorIconUrl ∧
     (handleGradientChange config g).selectedSize = config.selectedSize) ∧
    ((handleFileChange config u).authorIconUrl = u ∧
     (handleFileChange config u).siteName = config.siteName ∧
     (handleFileChange config u).articleTitle = config.articleTitle ∧
     (handleFileChange config u).authorName = config.authorName ∧
     (handleFileChange config u).selectedSize = config.selectedSize ∧
     (handleFileChange config u).gradientColor = config.gradientColor) :=
  ⟨⟨rfl, rfl, rfl, rfl, rfl, rfl⟩, ⟨rfl, rfl, rfl, rfl, rfl, rfl⟩,
   ⟨rfl, rfl, rfl, rfl, rfl, rfl⟩, ⟨rfl, rfl, rfl, rfl, rfl, rfl⟩,
   ⟨rfl, rfl, rfl, rfl, rfl, rfl⟩, ⟨rfl, rfl, rfl, rfl, rfl, rfl⟩⟩
